import Mathlib

/-!
Verification of the RAG_Chatbot repository.

The repository ships a React frontend (`frontend/src/components/InputBox.jsx`,
`ChatWindow.jsx`, `Message.jsx`, `App.jsx`, `services/api.js`) together with
documentation of a FastAPI backend (`backend/src/data_loader.py`,
`embedding.py`, `vectorstore.py`, `search.py`, `llm.py`, `main.py`).  The
frontend sources are embedded directly; the backend sources are not part of
the available file set, so the backend pipeline is modelled from the
specification, as marked on each definition below.
-/

namespace RAGChatbot

/-! ### Frontend: InputBox component (`frontend/src/components/InputBox.jsx`) -/

/-- The reactive state of the `InputBox` component: the controlled `input`
string and the `isLoading` / `disabled` props. -/
structure InputBoxState where
  input : String
  isLoading : Bool
  disabled : Bool
deriving DecidableEq

/-- JavaScript `String.prototype.trim`: drop leading and trailing
whitespace characters. -/
def jsTrim (s : String) : String :=
  String.mk (((s.data.dropWhile Char.isWhitespace).reverse.dropWhile
    Char.isWhitespace).reverse)

/-- Embedding of `handleSubmit` from `InputBox.jsx`: if `input.trim()` is
truthy (non-empty) and neither `isLoading` nor `disabled`, it calls
`onSendMessage(input)` (the untrimmed input) and resets the field with
`setInput("")`; otherwise nothing happens.  The first component is the
message passed to `onSendMessage` (`none` when it is not invoked), the
second the state after the handler. -/
def handleSubmit (st : InputBoxState) : Option String × InputBoxState :=
  if jsTrim st.input ≠ "" ∧ st.isLoading = false ∧ st.disabled = false then
    (some st.input, ⟨"", st.isLoading, st.disabled⟩)
  else
    (none, st)

/-! ### Frontend: App component (`App.jsx`, shipped in the same bundle) -/

/-- One chat message as stored in the `messages` state of `App`. -/
structure ChatMessage where
  kind : String
  content : String
deriving DecidableEq

/-- Outcome of the backend `POST /clear-history` call awaited by
`handleClearHistory`. -/
inductive BackendOutcome where
  | success
  | failure (msg : String)
deriving DecidableEq

/-- Embedding of `handleClearHistory` from `App.jsx`: `setMessages([])` runs
first, unconditionally; then `chatbotAPI.clearHistory()` is awaited inside
`try`, and the empty `catch` block ignores any error.  Returns the final
`messages` state. -/
def handleClearHistory (messages : List ChatMessage) (outcome : BackendOutcome) :
    List ChatMessage :=
  let cleared : List ChatMessage := []
  match outcome with
  | BackendOutcome.success => cleared
  | BackendOutcome.failure _ => cleared

/-! ### Frontend: API client (`frontend/src/services/api.js`) -/

/-- The JSON body the client posts to `/query`. -/
structure QueryRequestBody where
  question : String
  top_k : Int
  min_score : ℚ
deriving DecidableEq

/-- Embedding of `chatbotAPI.query` from `services/api.js`:
`query: (question, topK = 5, minScore = 0.0) =>
  api.post("/query", ... question, top_k: topK, min_score: minScore ...)`.
The optional arguments carry the source's defaults. -/
def chatbotAPI_query (question : String) (topK : Int := 5) (minScore : ℚ := 0) :
    QueryRequestBody :=
  ⟨question, topK, minScore⟩

/-! ### Backend model

The backend (FastAPI `main.py` plus `backend/src/*.py`) is not among the
available sources; its components are modelled from the specification. -/

/-- Modelled from the spec: `PipelineState` of §3 / §4.6 (`main.py` with the
`RAGPipeline` state machine is missing from the sources). -/
inductive PipelineState where
  | Uninitialized
  | Initializing
  | Ready
  | Failed
deriving DecidableEq

/-- Modelled from the spec: `IndexEntry` of §3 — vector, chunk text and
source metadata persisted inside `VectorIndex` (`vectorstore.py` is missing
from the sources). -/
structure IndexEntry where
  vec : List ℚ
  text : String
  source : String
deriving DecidableEq

/-- Modelled from the spec: `VectorIndex` of §4.3; entries are kept in
insertion order (`vectorstore.py` is missing from the sources). -/
structure VectorIndex where
  entries : List IndexEntry
deriving DecidableEq

/-- Modelled from the spec: one scored search hit of a `RetrievalResult`
(§3): the entry, its similarity score for the query, and its insertion
position in the index. -/
structure SearchHit where
  entry : IndexEntry
  score : ℚ
  idx : Nat
deriving DecidableEq

/-- Modelled from the spec: the "normalized inner product" similarity of
§4.3 on rational vectors. -/
def dotQ (a b : List ℚ) : ℚ :=
  (List.zipWith (fun x y => x * y) a b).sum

/-- Modelled from the spec: the ranking order of §4.3 — descending
similarity, ties broken by insertion order (earlier-inserted first). -/
def rankLE (a b : SearchHit) : Prop :=
  b.score < a.score ∨ (a.score = b.score ∧ a.idx ≤ b.idx)

instance : DecidableRel rankLE := fun a b => by
  unfold rankLE
  infer_instance

instance : IsTotal SearchHit rankLE := ⟨by
  intro a b
  rcases lt_trichotomy a.score b.score with h | h | h
  · exact Or.inr (Or.inl h)
  · rcases Nat.le_total a.idx b.idx with hi | hi
    · exact Or.inl (Or.inr ⟨h, hi⟩)
    · exact Or.inr (Or.inr ⟨h.symm, hi⟩)
  · exact Or.inl (Or.inl h)⟩

instance : IsTrans SearchHit rankLE := ⟨by
  intro a b c hab hbc
  rcases hab with h1 | ⟨e1, i1⟩
  · rcases hbc with h2 | ⟨e2, i2⟩
    · exact Or.inl (h2.trans h1)
    · exact Or.inl (e2.symm.trans_lt h1)
  · rcases hbc with h2 | ⟨e2, i2⟩
    · exact Or.inl (h2.trans_eq e1.symm)
    · exact Or.inr ⟨e1.trans e2, i1.trans i2⟩⟩

/-- Modelled from the spec: `VectorIndex.search(query_vector, top_k)` of
§4.3 — `top_k ≤ 0` is an error; otherwise at most `top_k` entries, ranked
by descending similarity with ties broken by insertion order; an empty
index yields an empty sequence. -/
def VectorIndex.search (v : VectorIndex) (q : List ℚ) (topK : Int) :
    Except String (List SearchHit) :=
  if topK ≤ 0 then
    Except.error "top_k must be at least 1"
  else
    Except.ok
      (((v.entries.enum.map
          (fun pr => SearchHit.mk pr.2 (dotQ q pr.2.vec) pr.1)).insertionSort
            rankLE).take topK.toNat)

/-- Modelled from the spec: `Retriever.retrieve` of §4.4 — embed the
question, search the index, filter out entries scoring below `min_score`
(`search.py` is missing from the sources). -/
def retrieve (embed : String → List ℚ) (v : VectorIndex) (question : String)
    (topK : Int) (minScore : ℚ) : Except String (List SearchHit) :=
  match v.search (embed question) topK with
  | Except.error e => Except.error e
  | Except.ok found => Except.ok (found.filter (fun h => decide (minScore ≤ h.score)))

/-- The fixed fallback answer of §4.5. -/
def fallbackText : String := "No context about this question."

/-- Modelled from the spec: clamping of the top retrieval score to `[0,1]`
for the confidence value (§4.5). -/
def clamp01 (x : ℚ) : ℚ := max 0 (min 1 x)

/-- Modelled from the spec: the constrained prompt of §4.5 — instruction,
source-tagged context, question (`llm.py` is missing from the sources). -/
def buildPrompt (question : String) (hits : List SearchHit) : String :=
  "Answer only from the context below. If the context is insufficient, reply exactly: No context about this question.\n\nContext:\n"
    ++ String.join (hits.map (fun h => "[" ++ h.entry.source ++ "] " ++ h.entry.text ++ "\n"))
    ++ "\nQuestion: " ++ question

/-- The structured answer of §6: generated text, deduplicated source
identifiers, confidence in `[0,1]`. -/
structure Answer where
  answer : String
  sources : List String
  confidence : ℚ
deriving DecidableEq

/-- Modelled from the spec: `AnswerComposer.compose` of §4.5 (`llm.py` is
missing from the sources).  On an empty `RetrievalResult` it returns the
fixed fallback answer without invoking the generative capability; otherwise
it invokes `generate` once on the built prompt.  The second component
counts invocations of the generative backend. -/
def compose (generate : String → String) (question : String)
    (hits : List SearchHit) : Answer × Nat :=
  match hits with
  | [] => (⟨fallbackText, [], 0⟩, 0)
  | h :: rest =>
    (⟨generate (buildPrompt question (h :: rest)),
      ((h :: rest).map (fun x => x.entry.source)).dedup,
      clamp01 h.score⟩, 1)

/-- Modelled from the spec: `ConversationTurn` of §3 — question, answer,
grounding `RetrievalResult` and a monotonic sequence number. -/
structure ConversationTurn where
  seq : Nat
  question : String
  answer : String
  grounding : List SearchHit
deriving DecidableEq

/-- Modelled from the spec: the error taxonomy of §7 visible at the query
boundary. -/
inductive QueryError where
  | PipelineNotReadyError
  | RetrievalError (msg : String)
  | GenerationError (msg : String)
deriving DecidableEq

/-- Modelled from the spec: the `Pipeline` owner of §4.6 — state, index,
conversation history and the configured model ids (`main.py` is missing
from the sources). -/
structure Pipeline where
  state : PipelineState
  index : VectorIndex
  histo : List ConversationTurn
  embModel : String
  llmModel : String
  failReason : Option String
deriving DecidableEq

/-- Modelled from the spec: a chunk produced by `ChunkStore` (§4.1,
`data_loader.py` is missing from the sources). -/
structure Chunk where
  text : String
  source : String
  seqIndex : Nat
deriving DecidableEq

/-- Modelled from the spec: the external collaborators of §6 — the document
source (which may fail with an ingestion error) and the embedding backend,
parameterized by model id. -/
structure Env where
  loadChunks : Except String (List Chunk)
  embedWith : String → String → List ℚ

/-- Modelled from the spec: the build-time flow of §2 — load chunks, embed
each with the selected model, form the index entries. -/
def buildEntries (env : Env) (embId : String) : Except String (List IndexEntry) :=
  match env.loadChunks with
  | Except.error e => Except.error e
  | Except.ok chunks =>
    Except.ok (chunks.map (fun c => ⟨env.embedWith embId c.text, c.text, c.source⟩))

/-- Modelled from the spec: `initialize(embedding_model_id,
generation_model_id)` of §6 — idempotent if already `Ready` with the same
model ids, full rebuild otherwise; a failing build step transitions to
`Failed` retaining the reason (§4.6). -/
def Pipeline.initPipeline (p : Pipeline) (env : Env) (embId genId : String) :
    Pipeline :=
  if p.state = PipelineState.Ready ∧ p.embModel = embId ∧ p.llmModel = genId then
    p
  else
    match buildEntries env embId with
    | Except.ok es => ⟨PipelineState.Ready, ⟨es⟩, p.histo, embId, genId, none⟩
    | Except.error e =>
      ⟨PipelineState.Failed, p.index, p.histo, p.embModel, p.llmModel, some e⟩

/-- Modelled from the spec: `query(question, top_k, min_score)` of §6 —
gated on `Ready` state, then retrieve, compose, and append a
`ConversationTurn`.  The final `Nat` counts invocations of the generative
backend during the call. -/
def Pipeline.query (p : Pipeline) (embed : String → List ℚ)
    (generate : String → String) (question : String) (topK : Int)
    (minScore : ℚ) : Except QueryError (Answer × Pipeline × Nat) :=
  if p.state = PipelineState.Ready then
    match retrieve embed p.index question topK minScore with
    | Except.error e => Except.error (QueryError.RetrievalError e)
    | Except.ok hits =>
      let pr := compose generate question hits
      let turn : ConversationTurn := ⟨p.histo.length, question, pr.1.answer, hits⟩
      Except.ok (pr.1, { p with histo := p.histo ++ [turn] }, pr.2)
  else
    Except.error QueryError.PipelineNotReadyError

/-- Modelled from the spec: `clear_history()` of §6 — empties the
`ConversationTurn` log only. -/
def Pipeline.clearHistory (p : Pipeline) : Pipeline :=
  { p with histo := [] }

/-- Modelled from the spec: `reset()` of §6 — returns the pipeline to
`Uninitialized` and clears `VectorIndex` and history. -/
def Pipeline.reset (p : Pipeline) : Pipeline :=
  ⟨PipelineState.Uninitialized, ⟨[]⟩, [], p.embModel, p.llmModel, none⟩

/-- Modelled from the spec: the `status()` record of §6. -/
structure PipelineStatus where
  state : PipelineState
  chunk_count : Nat
  embModel : String
  llmModel : String
deriving DecidableEq

/-- Modelled from the spec: `status()` of §6. -/
def Pipeline.status (p : Pipeline) : PipelineStatus :=
  ⟨p.state, p.index.entries.length, p.embModel, p.llmModel⟩

/-- Modelled from the spec: `history()` of §6 (most-recent-last). -/
def Pipeline.history (p : Pipeline) : List ConversationTurn := p.histo

/-- Whether an `Except` value is a success. -/
def isOkE {ε α : Type} : Except ε α → Bool
  | Except.ok _ => true
  | Except.error _ => false

instance {ε α : Type} [DecidableEq ε] [DecidableEq α] : DecidableEq (Except ε α) := fun x y =>
  match x, y with
  | Except.ok a, Except.ok b =>
    if h : a = b then isTrue (by rw [h]) else isFalse (by intro hh; cases hh; exact h rfl)
  | Except.error a, Except.error b =>
    if h : a = b then isTrue (by rw [h]) else isFalse (by intro hh; cases hh; exact h rfl)
  | Except.ok _, Except.error _ => isFalse (by intro hh; cases hh)
  | Except.error _, Except.ok _ => isFalse (by intro hh; cases hh)

end RAGChatbot

/-! ### Helper lemmas -/

namespace RAGChatbot

/-- Every hit returned by `search` comes from an index entry and carries the
similarity score of that entry for the query vector. -/
theorem search_mem {v : VectorIndex} {q : List ℚ} {k : Int} {hits : List SearchHit}
    (hok : v.search q k = Except.ok hits) :
    ∀ x ∈ hits, x.entry ∈ v.entries ∧ x.score = dotQ q x.entry.vec := by
  intro x hx
  unfold VectorIndex.search at hok
  by_cases hk : k ≤ 0
  · simp [hk] at hok
  · simp only [hk, if_false, Except.ok.injEq] at hok
    subst hok
    have hx2 : x ∈ (v.entries.enum.map
        (fun pr => SearchHit.mk pr.2 (dotQ q pr.2.vec) pr.1)).insertionSort rankLE :=
      List.mem_of_mem_take hx
    rw [List.mem_insertionSort] at hx2
    rcases List.mem_map.mp hx2 with ⟨pr, hpr, rfl⟩
    refine ⟨?_, rfl⟩
    have hsnd : pr.2 ∈ v.entries.enum.map Prod.snd := List.mem_map_of_mem Prod.snd hpr
    rwa [show v.entries.enum = v.entries.enumFrom 0 from rfl,
      List.enumFrom_map_snd] at hsnd

/-- A retrieval with a positive `top_k` never errors: an empty result is
success, not failure (§4.4). -/
theorem retrieve_isOk (embed : String → List ℚ) (v : VectorIndex)
    (question : String) (k : Int) (ms : ℚ) (hk : 0 < k) :
    ∃ hits, retrieve embed v question k ms = Except.ok hits := by
  unfold retrieve VectorIndex.search
  rw [if_neg (not_le.mpr hk)]
  exact ⟨_, rfl⟩

/-- Shape facts about every composed answer: deduplicated sources and a
confidence inside `[0,1]`. -/
theorem compose_shape (gen : String → String) (question : String)
    (hits : List SearchHit) :
    (compose gen question hits).1.sources.Nodup ∧
    0 ≤ (compose gen question hits).1.confidence ∧
    (compose gen question hits).1.confidence ≤ 1 := by
  cases hits with
  | nil =>
    refine ⟨List.nodup_nil, le_refl 0, ?_⟩
    exact zero_le_one
  | cons h rest =>
    refine ⟨List.nodup_dedup _, ?_, ?_⟩
    · exact le_max_left _ _
    · exact max_le zero_le_one (min_le_left _ _)

/-! ### Claim theorems -/

/-- In a list of hits sorted by `rankLE` whose insertion positions are
pairwise distinct, scores are non-increasing and equal scores are ordered
by strictly increasing insertion position. -/
theorem ranked_get (t : List SearchHit) (hs : List.Sorted rankLE t)
    (hn : (t.map SearchHit.idx).Nodup) :
    ∀ i j : Fin t.length, (i : ℕ) < (j : ℕ) →
      (t.get j).score ≤ (t.get i).score ∧
      ((t.get i).score = (t.get j).score → (t.get i).idx < (t.get j).idx) := by
  intro i j hij
  have hrel : rankLE (t.get i) (t.get j) := (List.pairwise_iff_get.mp hs) i j hij
  have hnn : (t.map SearchHit.idx).Pairwise (fun a b => a ≠ b) := hn
  have hp : t.Pairwise (fun a b => a.idx ≠ b.idx) := List.pairwise_map.mp hnn
  have hne : (t.get i).idx ≠ (t.get j).idx := (List.pairwise_iff_get.mp hp) i j hij
  rcases hrel with hlt | ⟨heq, hle⟩
  · exact ⟨le_of_lt hlt, fun he => absurd (he ▸ hlt) (lt_irrefl _)⟩
  · exact ⟨le_of_eq heq.symm, fun _ => lt_of_le_of_ne hle hne⟩

/-- Claim C3: `search` returns at most `k` entries sorted by non-increasing
similarity score, equal-score entries ordered by insertion order
(earlier-inserted first); `top_k ≤ 0` is an error; searching an empty
index returns an empty sequence, never an error. -/
theorem search_contract :
    ∀ (v : VectorIndex) (q : List ℚ) (k : Int),
      (k ≤ 0 → isOkE (v.search q k) = false) ∧
      (0 < k → VectorIndex.search ⟨[]⟩ q k = Except.ok []) ∧
      (∀ hits, v.search q k = Except.ok hits →
        hits.length ≤ k.toNat ∧
        ∀ i j : Fin hits.length, (i : ℕ) < (j : ℕ) →
          (hits.get j).score ≤ (hits.get i).score ∧
          ((hits.get i).score = (hits.get j).score →
            (hits.get i).idx < (hits.get j).idx)) := by
  intro v q k
  refine ⟨?_, ?_, ?_⟩
  · intro hk
    unfold VectorIndex.search
    rw [if_pos hk]
    rfl
  · intro hk
    unfold VectorIndex.search
    rw [if_neg (not_le.mpr hk)]
    simp [List.insertionSort]
  · intro hits hok
    by_cases hk : k ≤ 0
    · unfold VectorIndex.search at hok
      rw [if_pos hk] at hok
      cases hok
    · unfold VectorIndex.search at hok
      rw [if_neg hk] at hok
      injection hok with hhits
      subst hhits
      refine ⟨List.length_take_le _ _, ?_⟩
      apply ranked_get
      · exact List.Pairwise.sublist (List.take_sublist _ _)
          (List.sorted_insertionSort rankLE _)
      · rw [List.map_take]
        apply List.Nodup.sublist (List.take_sublist _ _)
        apply ((List.perm_insertionSort rankLE _).map SearchHit.idx).symm.nodup
        rw [List.map_map]
        exact List.nodup_enum_map_fst v.entries

/-- Witness for C3: a two-entry index with tied scores — `top_k = 0` is
rejected, the empty index yields `[]`, and the tied hits come back in
insertion order. -/
theorem search_contract_witness :
    isOkE (VectorIndex.search ⟨[⟨[], "t1", "s1"⟩, ⟨[], "t2", "s2"⟩]⟩ [] 0) = false ∧
    VectorIndex.search ⟨[]⟩ [] 1 = Except.ok [] ∧
    ([⟨⟨[], "t1", "s1"⟩, 0, 0⟩, ⟨⟨[], "t2", "s2"⟩, 0, 1⟩] : List SearchHit).length ≤
      (2 : Int).toNat ∧
    (([⟨⟨[], "t1", "s1"⟩, 0, 0⟩, ⟨⟨[], "t2", "s2"⟩, 0, 1⟩] :
        List SearchHit).get ⟨0, by decide⟩).idx <
      (([⟨⟨[], "t1", "s1"⟩, 0, 0⟩, ⟨⟨[], "t2", "s2"⟩, 0, 1⟩] :
        List SearchHit).get ⟨1, by decide⟩).idx := by
  have h1 := (search_contract ⟨[⟨[], "t1", "s1"⟩, ⟨[], "t2", "s2"⟩]⟩ [] 0).1 (by decide)
  have h2 := (search_contract (⟨[]⟩ : VectorIndex) [] 1).2.1 (by decide)
  have h3 := (search_contract ⟨[⟨[], "t1", "s1"⟩, ⟨[], "t2", "s2"⟩]⟩ [] 2).2.2
    [⟨⟨[], "t1", "s1"⟩, 0, 0⟩, ⟨⟨[], "t2", "s2"⟩, 0, 1⟩] (by decide)
  exact ⟨h1, h2, h3.1, (h3.2 ⟨0, by decide⟩ ⟨1, by decide⟩ (by decide)).2 (by decide)⟩

/-- Claim C1: a query whose retrieval result is empty (empty `VectorIndex`,
or every candidate scoring below `min_score`) returns exactly the fixed
answer "No context about this question." with empty sources and confidence
`0`, and the generative backend is never invoked (invocation count `0`). -/
theorem no_context_short_circuit :
    ∀ (p : Pipeline) (embed : String → List ℚ) (gen : String → String)
      (question : String) (k : Int) (ms : ℚ),
      p.state = PipelineState.Ready → 0 < k →
      (p.index.entries = [] ∨
        ∀ e ∈ p.index.entries, dotQ (embed question) e.vec < ms) →
      p.query embed gen question k ms =
        Except.ok (⟨fallbackText, [], 0⟩,
          { p with histo := p.histo ++ [⟨p.histo.length, question, fallbackText, []⟩] },
          0) := by
  intro p embed gen question k ms hready hk hbelow
  have hall : ∀ e ∈ p.index.entries, dotQ (embed question) e.vec < ms := by
    rcases hbelow with hnil | hall
    · intro e he
      rw [hnil] at he
      cases he
    · exact hall
  obtain ⟨hits, hr⟩ := retrieve_isOk embed p.index question k ms hk
  have hnilhits : hits = [] := by
    unfold retrieve at hr
    cases hok : p.index.search (embed question) k with
    | error e =>
      rw [hok] at hr
      cases hr
    | ok found =>
      rw [hok] at hr
      have hfil := (Except.ok.injEq _ _).mp hr
      rw [← hfil]
      rw [List.filter_eq_nil_iff]
      intro x hx
      rcases search_mem hok x hx with ⟨hmem, hscore⟩
      rw [decide_eq_true_iff, hscore]
      exact not_le.mpr (hall _ hmem)
  rw [hnilhits] at hr
  unfold Pipeline.query
  rw [hready, if_pos rfl, hr]
  rfl

/-- Witness for C1: on a ready pipeline over an empty index the query
returns the fallback with no generator invocation. -/
theorem no_context_short_circuit_witness :
    Pipeline.query ⟨PipelineState.Ready, ⟨[]⟩, [], "m", "g", none⟩
        (fun _ => []) (fun _ => "A") "q" 1 0 =
      Except.ok (⟨fallbackText, [], 0⟩,
        ⟨PipelineState.Ready, ⟨[]⟩, [⟨0, "q", fallbackText, []⟩], "m", "g", none⟩,
        0) :=
  no_context_short_circuit ⟨PipelineState.Ready, ⟨[]⟩, [], "m", "g", none⟩
    (fun _ => []) (fun _ => "A") "q" 1 0 rfl (by decide) (Or.inl rfl)

/-- A query on a `Ready` pipeline with a positive `top_k` succeeds. -/
theorem query_ok_of_ready (p : Pipeline) (embed : String → List ℚ)
    (gen : String → String) (question : String) (k : Int) (ms : ℚ)
    (hready : p.state = PipelineState.Ready) (hk : 0 < k) :
    isOkE (p.query embed gen question k ms) = true := by
  obtain ⟨hits, hr⟩ := retrieve_isOk embed p.index question k ms hk
  unfold Pipeline.query
  rw [hready, if_pos rfl, hr]
  rfl

/-- Claim C2: `query()` invoked in any state other than `Ready` fails with
`PipelineNotReadyError`; after a successful `initialize` the state is
`Ready` and `query()` succeeds. -/
theorem state_gate :
    ∀ (p : Pipeline) (env : Env) (embed : String → List ℚ)
      (gen : String → String) (question eId gId : String) (k : Int) (ms : ℚ),
      (p.state ≠ PipelineState.Ready →
        p.query embed gen question k ms =
          Except.error QueryError.PipelineNotReadyError) ∧
      (∀ es, buildEntries env eId = Except.ok es → 0 < k →
        (p.initPipeline env eId gId).state = PipelineState.Ready ∧
        isOkE ((p.initPipeline env eId gId).query embed gen question k ms) = true) := by
  intro p env embed gen question eId gId k ms
  constructor
  · intro hne
    unfold Pipeline.query
    rw [if_neg hne]
  · intro es hb hk
    have hready : (p.initPipeline env eId gId).state = PipelineState.Ready := by
      unfold Pipeline.initPipeline
      by_cases hc : p.state = PipelineState.Ready ∧ p.embModel = eId ∧ p.llmModel = gId
      · rw [if_pos hc]
        exact hc.1
      · rw [if_neg hc, hb]
    exact ⟨hready, query_ok_of_ready _ embed gen question k ms hready hk⟩

/-- Witness for C2: on an uninitialized pipeline the query is rejected;
after initialization over an empty document set the state is `Ready` and a
query succeeds. -/
theorem state_gate_witness :
    Pipeline.query ⟨PipelineState.Uninitialized, ⟨[]⟩, [], "", "", none⟩
        (fun _ => []) (fun _ => "A") "q" 1 0 =
      Except.error QueryError.PipelineNotReadyError ∧
    (Pipeline.initPipeline ⟨PipelineState.Uninitialized, ⟨[]⟩, [], "", "", none⟩
        ⟨Except.ok [], fun _ _ => []⟩ "m" "g").state = PipelineState.Ready ∧
    isOkE ((Pipeline.initPipeline ⟨PipelineState.Uninitialized, ⟨[]⟩, [], "", "", none⟩
        ⟨Except.ok [], fun _ _ => []⟩ "m" "g").query
          (fun _ => []) (fun _ => "A") "q" 1 0) = true := by
  have h := state_gate ⟨PipelineState.Uninitialized, ⟨[]⟩, [], "", "", none⟩
    ⟨Except.ok [], fun _ _ => []⟩ (fun _ => []) (fun _ => "A") "q" "m" "g" 1 0
  have h2 := h.2 [] rfl (by decide)
  exact ⟨h.1 (by decide), h2.1, h2.2⟩

/-- Claim C5: re-running `initialize` when the first run left the pipeline
`Ready`, with the same model ids and unchanged documents, changes nothing;
with different model ids it performs a full rebuild of the index. -/
theorem init_idempotent_or_rebuild :
    ∀ (env : Env) (p : Pipeline) (eId gId eId2 gId2 : String),
      ((p.initPipeline env eId gId).state = PipelineState.Ready →
        (p.initPipeline env eId gId).initPipeline env eId gId =
          p.initPipeline env eId gId) ∧
      (∀ es, ¬(eId2 = eId ∧ gId2 = gId) → buildEntries env eId2 = Except.ok es →
        ((p.initPipeline env eId gId).initPipeline env eId2 gId2).index.entries = es) := by
  intro env p eId gId eId2 gId2
  by_cases hc : p.state = PipelineState.Ready ∧ p.embModel = eId ∧ p.llmModel = gId
  · constructor
    · intro _
      unfold Pipeline.initPipeline
      rw [if_pos hc, if_pos hc]
    · intro es hne hb2
      have hp1 : p.initPipeline env eId gId = p := by
        unfold Pipeline.initPipeline
        rw [if_pos hc]
      rw [hp1]
      have hcond : ¬(p.state = PipelineState.Ready ∧ p.embModel = eId2 ∧
          p.llmModel = gId2) := by
        rintro ⟨_, he2, hg2⟩
        exact hne ⟨he2.symm.trans hc.2.1, hg2.symm.trans hc.2.2⟩
      unfold Pipeline.initPipeline
      rw [if_neg hcond, hb2]
  · cases hb : buildEntries env eId with
    | ok es1 =>
      have hp1 : p.initPipeline env eId gId =
          ⟨PipelineState.Ready, ⟨es1⟩, p.histo, eId, gId, none⟩ := by
        unfold Pipeline.initPipeline
        rw [if_neg hc, hb]
      constructor
      · intro _
        rw [hp1]
        unfold Pipeline.initPipeline
        rw [if_pos ⟨rfl, rfl, rfl⟩]
      · intro es hne hb2
        rw [hp1]
        have hcond : ¬((PipelineState.Ready = PipelineState.Ready) ∧ eId = eId2 ∧
            gId = gId2) := by
          rintro ⟨_, he2, hg2⟩
          exact hne ⟨he2.symm, hg2.symm⟩
        unfold Pipeline.initPipeline
        rw [if_neg hcond, hb2]
    | error e =>
      have hp1 : p.initPipeline env eId gId =
          ⟨PipelineState.Failed, p.index, p.histo, p.embModel, p.llmModel, some e⟩ := by
        unfold Pipeline.initPipeline
        rw [if_neg hc, hb]
      constructor
      · intro hst
        rw [hp1] at hst
        cases hst
      · intro es hne hb2
        rw [hp1]
        have hcond : ¬((PipelineState.Failed = PipelineState.Ready) ∧
            p.embModel = eId2 ∧ p.llmModel = gId2) := by
          rintro ⟨hf, _, _⟩
          cases hf
        unfold Pipeline.initPipeline
        rw [if_neg hcond, hb2]

/-- Witness for C5: an initialized pipeline over a fixed document set is
unchanged by a repeated `initialize` with the same ids, and a different
embedding id triggers a rebuild producing the freshly built entries. -/
theorem init_idempotent_or_rebuild_witness :
    (Pipeline.initPipeline
        (Pipeline.initPipeline ⟨PipelineState.Uninitialized, ⟨[]⟩, [], "", "", none⟩
          ⟨Except.ok [], fun _ _ => []⟩ "a" "b")
        ⟨Except.ok [], fun _ _ => []⟩ "a" "b" =
      Pipeline.initPipeline ⟨PipelineState.Uninitialized, ⟨[]⟩, [], "", "", none⟩
        ⟨Except.ok [], fun _ _ => []⟩ "a" "b") ∧
    (Pipeline.initPipeline
        (Pipeline.initPipeline ⟨PipelineState.Uninitialized, ⟨[]⟩, [], "", "", none⟩
          ⟨Except.ok [], fun _ _ => []⟩ "a" "b")
        ⟨Except.ok [], fun _ _ => []⟩ "c" "b").index.entries = [] := by
  have h := init_idempotent_or_rebuild ⟨Except.ok [], fun _ _ => []⟩
    ⟨PipelineState.Uninitialized, ⟨[]⟩, [], "", "", none⟩ "a" "b" "c" "b"
  exact ⟨h.1 (by decide), h.2 [] (by decide) rfl⟩

/-- Claim C6: every successful `query` yields sources deduplicated by
source identifier and a confidence in `[0,1]`; the confidence of a
non-empty composition is the clamp of the top retrieval score, and that
clamping map is monotone. -/
theorem query_result_shape :
    ∀ (p : Pipeline) (embed : String → List ℚ) (gen : String → String)
      (question : String) (k : Int) (ms : ℚ) (ans : Answer) (p2 : Pipeline)
      (n : Nat),
      (p.query embed gen question k ms = Except.ok (ans, p2, n) →
        ans.sources.Nodup ∧ 0 ≤ ans.confidence ∧ ans.confidence ≤ 1) ∧
      (∀ (h : SearchHit) (rest : List SearchHit),
        (compose gen question (h :: rest)).1.confidence = clamp01 h.score) ∧
      (∀ x y : ℚ, x ≤ y → clamp01 x ≤ clamp01 y) := by
  intro p embed gen question k ms ans p2 n
  refine ⟨?_, ?_, ?_⟩
  · intro hq
    by_cases hready : p.state = PipelineState.Ready
    · unfold Pipeline.query at hq
      rw [hready, if_pos rfl] at hq
      cases hr : retrieve embed p.index question k ms with
      | error e =>
        rw [hr] at hq
        cases hq
      | ok hits =>
        rw [hr] at hq
        have hans : (compose gen question hits).1 = ans := by
          have := (Except.ok.injEq _ _).mp hq
          exact congrArg Prod.fst this
        rw [← hans]
        exact compose_shape gen question hits
    · unfold Pipeline.query at hq
      rw [if_neg hready] at hq
      cases hq
  · intro h rest
    rfl
  · intro x y hxy
    exact max_le_max (le_refl 0) (min_le_min (le_refl 1) hxy)

/-- Witness for C6: a concrete successful query has deduplicated sources
and confidence inside the unit interval. -/
theorem query_result_shape_witness :
    (Pipeline.query ⟨PipelineState.Ready, ⟨[⟨[], "t", "s"⟩]⟩, [], "m", "g", none⟩
        (fun _ => []) (fun _ => "A") "q" 1 0 =
      Except.ok (⟨"A", ["s"], 0⟩,
        ⟨PipelineState.Ready, ⟨[⟨[], "t", "s"⟩]⟩,
          [⟨0, "q", "A", [⟨⟨[], "t", "s"⟩, 0, 0⟩]⟩], "m", "g", none⟩, 1)) ∧
    (["s"] : List String).Nodup ∧ (0:ℚ) ≤ 0 ∧ (0:ℚ) ≤ 1 := by
  have h := (query_result_shape
    ⟨PipelineState.Ready, ⟨[⟨[], "t", "s"⟩]⟩, [], "m", "g", none⟩
    (fun _ => []) (fun _ => "A") "q" 1 0 ⟨"A", ["s"], 0⟩
    ⟨PipelineState.Ready, ⟨[⟨[], "t", "s"⟩]⟩,
      [⟨0, "q", "A", [⟨⟨[], "t", "s"⟩, 0, 0⟩]⟩], "m", "g", none⟩ 1).1 (by decide)
  exact ⟨by decide, h.1, h.2.1, h.2.2⟩

/-- Claim C7: `clear_history` empties only the `ConversationTurn` log: after
`clear_history()` the history is empty while the `VectorIndex` contents, the
`chunk_count` and the pipeline state are unchanged. -/
theorem clear_history_frame :
    ∀ p : Pipeline,
      (p.clearHistory).history = [] ∧
      (p.clearHistory).index = p.index ∧
      (p.clearHistory).state = p.state ∧
      (p.clearHistory).status.chunk_count = p.status.chunk_count := by
  intro p
  exact ⟨rfl, rfl, rfl, rfl⟩

/-- Claim C8: after `reset()` the pipeline is `Uninitialized`,
`status().chunk_count` is `0`, the history is empty, and any subsequent
`query()` fails with `PipelineNotReadyError`. -/
theorem reset_spec :
    ∀ (p : Pipeline) (embed : String → List ℚ) (gen : String → String)
      (q : String) (k : Int) (ms : ℚ),
      (p.reset).state = PipelineState.Uninitialized ∧
      (p.reset).status.chunk_count = 0 ∧
      (p.reset).history = [] ∧
      (p.reset).query embed gen q k ms = Except.error QueryError.PipelineNotReadyError := by
  intro p embed gen q k ms
  exact ⟨rfl, rfl, rfl, rfl⟩

/-- Claim C10: clearing the chat from the UI empties the local message list
unconditionally before the backend clear-history call completes, and a
failure of that call is silently ignored: for every backend outcome the
local messages end empty. -/
theorem clear_chat_unconditional :
    ∀ (msgs : List ChatMessage) (outcome : BackendOutcome),
      handleClearHistory msgs outcome = [] := by
  intro msgs outcome
  cases outcome <;> rfl

/-- Claim C9: the chat input never submits an empty or whitespace-only
question: `handleSubmit` invokes `onSendMessage` (with the untrimmed input)
exactly when `input.trim()` is non-empty, `isLoading` is false and
`disabled` is false; on submission the input field is reset to `""`. -/
theorem handleSubmit_guard :
    ∀ st : InputBoxState,
      (jsTrim st.input ≠ "" → st.isLoading = false → st.disabled = false →
        handleSubmit st = (some st.input, ⟨"", st.isLoading, st.disabled⟩)) ∧
      ((jsTrim st.input = "" ∨ st.isLoading = true ∨ st.disabled = true) →
        handleSubmit st = (none, st)) := by
  intro st
  constructor
  · intro h1 h2 h3
    simp [handleSubmit, h1, h2, h3]
  · intro h
    rcases h with h | h | h
    · simp [handleSubmit, h]
    · simp [handleSubmit, h]
    · simp [handleSubmit, h]

/-- Witness for C9 at a concrete whitespace-padded input: the untrimmed
text is sent and the field is cleared. -/
theorem handleSubmit_guard_witness :
    jsTrim " hi " ≠ "" ∧
    handleSubmit ⟨" hi ", false, false⟩ = (some " hi ", ⟨"", false, false⟩) :=
  ⟨by decide, (handleSubmit_guard ⟨" hi ", false, false⟩).1 (by decide) rfl rfl⟩

/-- Claim C4: the client's default retrieval threshold is permissive: a
question sent without explicit options carries `min_score = 0.0` and
`top_k = 5`; at threshold `0` the retrieval filter removes nothing whose
score is non-negative, and the empty-`RetrievalResult` check in
`AnswerComposer` is the check that produces the "no context" answer. -/
theorem query_request_defaults :
    ∀ (question : String) (embed : String → List ℚ) (v : VectorIndex) (k : Int)
      (gen : String → String),
      chatbotAPI_query question = ⟨question, 5, 0⟩ ∧
      ((∀ e ∈ v.entries, 0 ≤ dotQ (embed question) e.vec) →
        retrieve embed v question k 0 = v.search (embed question) k) ∧
      compose gen question [] = (⟨fallbackText, [], 0⟩, 0) := by
  intro question embed v k gen
  refine ⟨rfl, ?_, rfl⟩
  intro hnn
  cases hok : v.search (embed question) k with
  | error e =>
    unfold retrieve
    rw [hok]
  | ok found =>
    have hall : ∀ x ∈ found, decide ((0:ℚ) ≤ x.score) = true := by
      intro x hx
      rcases search_mem hok x hx with ⟨hmem, hscore⟩
      rw [decide_eq_true_iff, hscore]
      exact hnn _ hmem
    unfold retrieve
    rw [hok]
    exact congrArg Except.ok (List.filter_eq_self.mpr hall)

/-- Witness for C4 on a concrete index whose entry scores `0`: the filter
at the default threshold keeps the whole search result. -/
theorem query_request_defaults_witness :
    chatbotAPI_query "w" = ⟨"w", 5, 0⟩ ∧
    retrieve (fun _ => []) ⟨[⟨[], "t", "s"⟩]⟩ "w" 1 0 =
      VectorIndex.search ⟨[⟨[], "t", "s"⟩]⟩ [] 1 := by
  have h := query_request_defaults "w" (fun _ => []) ⟨[⟨[], "t", "s"⟩]⟩ 1 (fun _ => "g")
  exact ⟨h.1, h.2.1 (by intro e he; simp [dotQ])⟩

end RAGChatbot
